import Mathlib

/-!
Verification development for the NI_DAQmx blacs workers
(`src/NI_DAQmx/blacs_workers.py`) and the NI_PCIe_6363 model class
(`src/NI_DAQmx/models/NI_PCIe_6363.py`).

The Python code is shallowly embedded: instance state becomes explicit
state records, methods become state-passing functions, numpy array
operations become list operations with the numpy broadcasting rules made
explicit, and Python exceptions become `Except`.  Machine floats are
modelled by exact rationals; none of the verified claims depends on
binary rounding of individual float operations, only on the arithmetic
structure of the computations.
-/

namespace NIAcq

/-! ### NI_DAQmxAcquisitionWorker (blacs_workers.py lines 378-626) -/

/-- `MAX_READ_PTS = 10000` (line 380). -/
def MAX_READ_PTS : ℤ := 10000

/-- `MAX_READ_INTERVAL = 0.2` (line 379), as the exact rational 1/5. -/
def MAX_READ_INTERVAL : ℚ := 1 / 5

/-- Python `int()` applied to a real number: truncation toward zero. -/
def pyInt (q : ℚ) : ℤ := if q < 0 then ⌈q⌉ else ⌊q⌋

/-- `num_samples = min(self.MAX_READ_PTS, int(rate * self.MAX_READ_INTERVAL))`
(line 456 in `start_task`). -/
def num_samples (rate : ℚ) : ℤ := min MAX_READ_PTS (pyInt (rate * MAX_READ_INTERVAL))

/-- The hardware task as visible to the worker: its integer handle value
(`task.taskHandle.value`) and the samples the device has acquired but not
yet delivered to a `ReadAnalogF64` call. -/
structure TaskInfo where
  handle : ℕ
  available : List ℚ
deriving DecidableEq

/-- The mutable instance state of `NI_DAQmxAcquisitionWorker` that
`read`/`start_task`/`stop_task` touch under `self.tasklock`:
`self.task`, `self.read_array`, `self.buffered_mode`, `self.acquired_data`
(lines 382-395). -/
structure AcqState where
  task : Option TaskInfo
  hasReadArray : Bool
  buffered_mode : Bool
  acquired_data : Option (List (List ℚ))
deriving DecidableEq

/-- The first argument of `read`.  The DAQmx callback passes the integer
handle value; `stop_task` (line 492) instead passes the Python `Task`
object itself. -/
inductive PyHandleArg
  | intVal (n : ℕ)
  | taskObj (handle : ℕ)
deriving DecidableEq

/-- Python evaluation of `task_handle != self.task.taskHandle.value`
negated, i.e. of equality with the integer handle value (line 419).
A PyDAQmx `Task` object defines no `__eq__`, so comparison of the object
against an `int` falls back to identity and is always unequal. -/
def handleArgEqValue : PyHandleArg → ℕ → Bool
  | .intVal n, m => n == m
  | .taskObj _, _ => false

/-- The guard at line 419: `self.task is None or task_handle !=
self.task.taskHandle.value`, as a Boolean on the state. -/
def readGuardRejects (s : AcqState) (h : PyHandleArg) : Bool :=
  match s.task with
  | none => true
  | some t => ! handleArgEqValue h t.handle

/-- `read` (lines 413-439).  Under the task lock: if the task is gone or
the handle does not match, return 0 leaving all state unchanged.
Otherwise `ReadAnalogF64` drains up to `nsamp` samples (all available
when `nsamp` is -1, as passed by `stop_task`), and in buffered mode the
read chunk is appended to `acquired_data`.  The float64 to float32
downconversion at line 432 does not change which samples are stored and
is not modelled as a value transformation.  Returns the new state and
the Python return value (always 0). -/
def read (s : AcqState) (task_handle : PyHandleArg) (nsamp : ℤ) : AcqState × ℤ :=
  match s.task with
  | none => (s, 0)
  | some t =>
    if handleArgEqValue task_handle t.handle then
      let nread : ℕ := if nsamp < 0 then t.available.length
        else min nsamp.toNat t.available.length
      let data := t.available.take nread
      let s1 : AcqState := { s with task := some ⟨t.handle, t.available.drop nread⟩ }
      if s1.buffered_mode then
        ({ s1 with acquired_data := s1.acquired_data.map (fun l => l ++ [data]) }, 0)
      else (s1, 0)
    else (s, 0)

/-- `stop_task` (lines 487-497).  Under the task lock: raise
`RuntimeError` with message "Task not running" when `self.task is None`; otherwise
call `self.read(self.task, None, -1)` — passing the `Task` object itself
where `read` compares an integer handle value — then stop and clear the
task and release the read array. -/
def stop_task (s : AcqState) : Except String AcqState :=
  match s.task with
  | none => .error "Task not running"
  | some t =>
    let s1 := (read s (.taskObj t.handle) (-1)).1
    .ok { s1 with task := none, hasReadArray := false }

/-! #### extract_measurements (lines 565-617) -/

/-- The epsilon `2e-16` used at lines 604 and 607, as an exact rational. -/
def EPS : ℚ := 2 / 10 ^ 16

/-- `i_start = int(np.ceil(self.buffered_rate * (t_start - t0)))` (line 600). -/
def i_start_raw (rate t0 t_start : ℚ) : ℤ := ⌈rate * (t_start - t0)⌉

/-- The corrected start index (lines 600-605): decrement when
`t0 + (i_start - 1) / rate - t_start > -2e-16`. -/
def i_start_corrected (rate t0 t_start : ℚ) : ℤ :=
  let i := i_start_raw rate t0 t_start
  if t0 + (i - 1) / rate - t_start > -EPS then i - 1 else i

/-- `i_end = int(np.floor(self.buffered_rate * (t_end - t0)))` (line 601). -/
def i_end_raw (rate t0 t_end : ℚ) : ℤ := ⌊rate * (t_end - t0)⌋

/-- The corrected end index (lines 606-608): decrement when
`t_end - t0 - i_end / rate < 2e-16`, so that the floor yields the largest
integer strictly below `rate * (t_end - t0)`. -/
def i_end_corrected (rate t0 t_end : ℚ) : ℤ :=
  let i := i_end_raw rate t0 t_end
  if t_end - t0 - i / rate < EPS then i - 1 else i

/-- Normalization of one endpoint of a Python slice `xs[a:b]`: negative
indices count from the end, then the result is clamped to `[0, len]`. -/
def pyBound (n : ℤ) (i : ℤ) : ℤ := max 0 (min (if i < 0 then i + n else i) n)

/-- Python list/array slicing `xs[start:stop]` with step 1: silently
clamps out-of-range endpoints and wraps negative ones, never raising. -/
def pySlice {α : Type} (xs : List α) (start stop : ℤ) : List α :=
  (xs.take (pyBound xs.length stop).toNat).drop (pyBound xs.length start).toNat

/-- `np.linspace(a, b, n, endpoint=True)`. -/
def linspace (a b : ℚ) (n : ℕ) : List ℚ :=
  if n = 0 then []
  else if n = 1 then [a]
  else (List.range n).map (fun (i : ℕ) => a + (b - a) * (i : ℚ) / ((n : ℚ) - 1))

/-- numpy assignment of a 1-D array `src` into a 1-D destination of
length `n` (as in the time-column assignment at line 615): succeeds when the
lengths agree, broadcasts a length-1 source across the destination, and
raises a shape-mismatch `ValueError` otherwise. -/
def npBroadcastAssign {α : Type} (n : ℕ) (src : List α) : Option (List α) :=
  if src.length = n then some src
  else
    match src with
    | [x] => some (List.replicate n x)
    | _ => none

/-- Extraction of a single measurement trace from the accumulated buffer
of one channel (lines 600-617, for one row of the acquisitions table,
after the wait-duration shifts have been applied to `t_start`/`t_end`).
`times = np.linspace(t_i, t_f, i_end - i_start + 1)` raises for a
negative count; `values = raw_data[connection][i_start : i_end + 1]`
slices with Python semantics; the time-column and value-column
assignments (lines 615-616) write into an array of `len(values)` rows
with numpy broadcasting.  Returns the list of (time, value) pairs of the
dataset written, or the error raised. -/
def extract_one (rate t0 : ℚ) (buffer : List ℚ) (t_start t_end : ℚ) :
    Except String (List (ℚ × ℚ)) :=
  let iS := i_start_corrected rate t0 t_start
  let iE := i_end_corrected rate t0 t_end
  let nreq : ℤ := iE - iS + 1
  if nreq < 0 then .error "ValueError: number of samples must be non-negative"
  else
    let times := linspace (t0 + iS / rate) (t0 + iE / rate) nreq.toNat
    let values := pySlice buffer iS (iE + 1)
    match npBroadcastAssign values.length times with
    | none => .error "ValueError: could not broadcast"
    | some ts =>
      match npBroadcastAssign values.length values with
      | none => .error "ValueError: could not broadcast"
      | some vs => .ok (ts.zip vs)

end NIAcq

namespace NIWait

/-! ### Ni_DAQmxWaitMonitorWorker (blacs_workers.py lines 629-844) -/

/-- One row of the `waits` table loaded from the experiment store:
label, scheduled start time and timeout. -/
structure WaitTableEntry where
  label : String
  time : ℚ
  timeout : ℚ
deriving DecidableEq

/-- The instance state relevant to the wait monitor claims:
`self.is_wait_monitor_device`, `self.waits_in_use`, `self.wait_table`,
`self.half_periods` and `self.timeout_trigger_type`.  The
`timeout_trigger_type` field is only meaningful once the worker has read
it from the wait table attributes (it defaults to "rising" in the
zero-wait state of the model, where the source leaves it unset). -/
structure WMState where
  is_wait_monitor_device : Bool
  waits_in_use : Bool
  wait_table : List WaitTableEntry
  half_periods : List ℚ
  timeout_trigger_type : String
deriving DecidableEq

/-- Running prefix sums starting from `acc` (helper for `np.cumsum`). -/
def cumsumFrom (acc : ℚ) : List ℚ → List ℚ
  | [] => []
  | x :: xs => (acc + x) :: cumsumFrom (acc + x) xs

/-- `np.cumsum` (line 804). -/
def cumsum (xs : List ℚ) : List ℚ := cumsumFrom 0 xs

/-- Stride-2 selection `xs[::2]` (line 808). -/
def everySecond {α : Type} : List α → List α
  | [] => []
  | [a] => [a]
  | a :: _ :: rest => a :: everySecond rest

/-- `np.diff` (lines 810 and 817). -/
def diffs : List ℚ → List ℚ
  | [] => []
  | [_] => []
  | a :: b :: rest => (b - a) :: diffs (b :: rest)

/-- numpy elementwise subtraction of two 1-D arrays with broadcasting
(line 818): equal lengths subtract pointwise, a length-1 operand spreads
over the other, anything else raises. -/
def broadcastSub (a b : List ℚ) : Option (List ℚ) :=
  if a.length = b.length then some (List.zipWith (fun x y => x - y) a b)
  else
    match a, b with
    | [x], _ => some (b.map (fun y => x - y))
    | _, [y] => some (a.map (fun x => x - y))
    | _, _ => none

/-- numpy elementwise `>` on two 1-D arrays with broadcasting (line 819). -/
def broadcastGt (a b : List ℚ) : Option (List Bool) :=
  if a.length = b.length then some (List.zipWith (fun x y => decide (y < x)) a b)
  else
    match a, b with
    | [x], _ => some (b.map (fun y => decide (y < x)))
    | _, [y] => some (a.map (fun x => decide (y < x)))
    | _, _ => none

/-- Lines 804-818 of `transition_to_manual`: cumulative edge times with
an implicit edge at 0 prepended, every second edge taken as a rising
edge, successive differences as observed periods, minus the scheduled
periods derived the same way from the wait start times.  `none` models a
numpy broadcast error. -/
def wait_durations_model (half_periods wait_times : List ℚ) : Option (List ℚ) :=
  let edge_times := 0 :: cumsum half_periods
  let rising_edge_times := everySecond edge_times
  let periods := diffs rising_edge_times
  let run_periods := diffs (0 :: wait_times)
  broadcastSub periods run_periods

/-- Line 819: the timed-out comparison of the durations against the timeout
column of the wait table. -/
def waits_timed_out_model (durations timeouts : List ℚ) : Option (List Bool) :=
  broadcastGt durations timeouts

/-- One row of the `/data/waits` dataset written at session end
(label, time, timeout, duration, timed_out). -/
structure PauseOutcome where
  label : String
  time : ℚ
  timeout : ℚ
  duration : ℚ
  timed_out : Bool
deriving DecidableEq

/-- Lines 822-829: build the `/data/waits` record array of
`len(self.wait_table)` rows and assign the label/time/timeout columns
from the wait table and the duration/timed_out columns from the resolved
arrays, with numpy broadcast-assignment semantics for the latter two. -/
def build_waits_data (wt : List WaitTableEntry) (durations : List ℚ)
    (timedOut : List Bool) : Except String (List PauseOutcome) :=
  match NIAcq.npBroadcastAssign wt.length durations with
  | none => .error "ValueError: could not broadcast"
  | some ds =>
    match NIAcq.npBroadcastAssign wt.length timedOut with
    | none => .error "ValueError: could not broadcast"
    | some ts =>
      .ok ((wt.zip (ds.zip ts)).map (fun p => ⟨p.1.label, p.1.time, p.1.timeout, p.2.1, p.2.2⟩))

/-- `transition_to_buffered` (lines 735-790), reduced to the state it
establishes and whether the monitor thread is started.  Arguments:
the wait table rows of the shot file, whether the file
`wait_monitor_timeout_device` / `wait_monitor_acquisition_device`
attributes of the file name this device, and the
`wait_monitor_timeout_trigger_type` attribute (`none` models a missing
attribute, defaulted to "rising" at line 757).  With zero waits the
method returns at line 748 before reading any attribute and never marks
the device as the wait monitor.  When only the acquisition attribute
names this device a `NotImplementedError` is raised (line 762).  No
polarity validation occurs here: an arbitrary trigger-type string is
stored and the thread is started. -/
def wm_transition_to_buffered (file_waits : List WaitTableEntry)
    (timeoutDev acqDev : Bool) (polarity : Option String) :
    Except String (WMState × Bool) :=
  if file_waits.isEmpty then
    .ok (⟨false, false, [], [], "rising"⟩, false)
  else
    let ttype := polarity.getD "rising"
    if timeoutDev || acqDev then
      if !timeoutDev && acqDev then .error "NotImplementedError"
      else .ok (⟨true, true, file_waits, [], ttype⟩, true)
    else .ok (⟨false, true, file_waits, [], ttype⟩, false)

/-- `send_resume_trigger` (lines 704-721): for polarity "rising" write
trigger value 1 then rearm value 0; for "falling" write 0 then rearm 1;
any other string raises `ValueError`.  Returns (trigger, rearm). -/
def send_resume_trigger (ttype : String) : Except String (ℕ × ℕ) :=
  if ttype = "rising" then .ok (1, 0)
  else if ttype = "falling" then .ok (0, 1)
  else .error "ValueError: timeout_trigger_type must be rising or falling"

/-- `transition_to_manual` (lines 792-835), reduced to the number of
`/data/waits` datasets created (0 or 1) or the error raised.  When not
aborting and the device is the wait monitor with waits in use, the
durations and timed-out flags are resolved and written; the dataset is
created whenever `is_wait_monitor_device` holds; otherwise nothing is
written. -/
def wm_transition_to_manual (s : WMState) (abort : Bool) : Except String ℕ :=
  if abort then .ok 0
  else if s.is_wait_monitor_device && s.waits_in_use then
    match wait_durations_model s.half_periods (s.wait_table.map (fun w => w.time)) with
    | none => .error "ValueError: could not broadcast"
    | some durations =>
      match waits_timed_out_model durations (s.wait_table.map (fun w => w.timeout)) with
      | none => .error "ValueError: could not broadcast"
      | some timedOut =>
        match build_waits_data s.wait_table durations timedOut with
        | .error e => .error e
        | .ok _ => .ok 1
  else if s.is_wait_monitor_device then .ok 1
  else .ok 0

/-! #### wait_for_rising_edge (lines 644-667) -/

/-- Outcome of one `ReadCounterF64` call: a sample arrives within the
read timeout, or `SamplesNotYetAvailableError` is raised. -/
inductive ReadOutcome
  | sample (v : ℚ)
  | notYetAvailable
deriving DecidableEq

/-- The per-call blocking bound chosen at lines 651-654: 0.2 s when no
timeout was given, otherwise the full timeout. -/
def read_timeout (timeout : Option ℚ) : ℚ :=
  match timeout with
  | none => 1 / 5
  | some t => t

/-- The `while True` loop of `wait_for_rising_edge` (lines 656-667).
`abortFlag i` is the value of `self.abort` observed at the i-th
check made by iteration i, `driver i` the outcome of the i-th `ReadCounterF64`
call (each such call blocks for at most `read_timeout timeout` seconds).
Result: `none` when the fuel is exhausted, otherwise the Python result —
`Except.error` for the `RuntimeError` with message "Aborted", `Except.ok none` for
return `None` on timeout, `Except.ok (some v)` for a measured edge. -/
def wait_loop : ℕ → Option ℚ → (ℕ → Bool) → (ℕ → ReadOutcome) →
    Option (Except String (Option ℚ))
  | 0, _, _, _ => none
  | fuel + 1, timeout, abortFlag, driver =>
    if abortFlag 0 then some (.error "Aborted")
    else
      match driver 0 with
      | .sample v => some (.ok (some v))
      | .notYetAvailable =>
        match timeout with
        | none => wait_loop fuel none (fun i => abortFlag (i + 1)) (fun i => driver (i + 1))
        | some _ => some (.ok none)

end NIWait

namespace NIModel

/-! ### NI_PCIe_6363 (models/NI_PCIe_6363.py) -/

/-- A value of the `CAPABILITIES` dictionary: a two-element range list,
a numeric rate, an integer count, the ports sub-dictionary (name, line
count, buffered support), or a Boolean flag. -/
inductive CapValue
  | qpair (lo hi : ℚ)
  | q (x : ℚ)
  | n (k : ℕ)
  | portSpec (ps : List (String × ℕ × Bool))
  | flag (b : Bool)
deriving DecidableEq

/-- The `CAPABILITIES` dictionary of `NI_PCIe_6363.py` (lines 31-47), as
a finite map from key strings.  The decimal literal
`2857142.8571428573` is carried as the exact rational it spells. -/
def CAPABILITIES : String → Option CapValue := fun key =>
  if key = "AO_range" then some (.qpair (-10) 10)
  else if key = "max_AI_multi_chan_rate" then some (.q 1000000)
  else if key = "max_AI_single_chan_rate" then some (.q 2000000)
  else if key = "max_AO_sample_rate" then some (.q (28571428571428573 / 10000000000))
  else if key = "max_DO_sample_rate" then some (.q 10000000)
  else if key = "num_AI" then some (.n 32)
  else if key = "num_AO" then some (.n 4)
  else if key = "num_CI" then some (.n 4)
  else if key = "ports" then
    some (.portSpec [("port0", 32, true), ("port1", 8, false), ("port2", 8, false)])
  else if key = "supports_buffered_AO" then some (.flag true)
  else if key = "supports_buffered_DO" then some (.flag true)
  else none

/-- `NI_PCIe_6363.__init__` (lines 53-57): `combined_kwargs =
CAPABILITIES.copy(); combined_kwargs.update(kwargs)`.  These are the
keyword arguments forwarded to the `NI_DAQmx` base initializer. -/
def combined_kwargs (kwargs : String → Option CapValue) : String → Option CapValue :=
  fun key =>
    match kwargs key with
    | some v => some v
    | none => CAPABILITIES key

/-- A concrete caller kwargs dictionary overriding one capability key. -/
def exampleKwargs : String → Option CapValue :=
  fun key => if key = "num_AI" then some (.n 16) else none

end NIModel

/-! ### Helper lemmas -/

namespace NIWait

theorem cumsumFrom_length (acc : ℚ) (xs : List ℚ) :
    (cumsumFrom acc xs).length = xs.length := by
  induction xs generalizing acc with
  | nil => rfl
  | cons x xs ih => simp [cumsumFrom, ih]

theorem cumsum_length (xs : List ℚ) : (cumsum xs).length = xs.length :=
  cumsumFrom_length 0 xs

theorem everySecond_length {α : Type} :
    ∀ xs : List α, (everySecond xs).length = (xs.length + 1) / 2
  | [] => by simp [everySecond]
  | [_] => by simp [everySecond]
  | _ :: _ :: rest => by
    simp only [everySecond, List.length_cons, everySecond_length rest]
    omega

theorem diffs_length : ∀ xs : List ℚ, (diffs xs).length = xs.length - 1
  | [] => rfl
  | [_] => rfl
  | _ :: b :: rest => by
    simp only [diffs, List.length_cons, diffs_length (b :: rest)]
    omega

theorem broadcastSub_of_length_eq {a b : List ℚ} (h : a.length = b.length) :
    broadcastSub a b = some (List.zipWith (fun x y => x - y) a b) := by
  simp [broadcastSub, h]

theorem broadcastGt_of_length_eq {a b : List ℚ} (h : a.length = b.length) :
    broadcastGt a b = some (List.zipWith (fun x y => decide (y < x)) a b) := by
  simp [broadcastGt, h]

theorem wait_loop_succ (fuel : ℕ) (timeout : Option ℚ) (ab : ℕ → Bool)
    (dr : ℕ → ReadOutcome) :
    wait_loop (fuel + 1) timeout ab dr =
      if ab 0 then some (.error "Aborted")
      else
        match dr 0 with
        | .sample v => some (.ok (some v))
        | .notYetAvailable =>
          match timeout with
          | none => wait_loop fuel none (fun i => ab (i + 1)) (fun i => dr (i + 1))
          | some _ => some (.ok none) :=
  rfl

end NIWait

namespace NIAcq

theorem npBroadcastAssign_of_length_eq {α : Type} {n : ℕ} {src : List α}
    (h : src.length = n) : npBroadcastAssign n src = some src := by
  simp [npBroadcastAssign, h]

theorem npBroadcastAssign_eq_none {α : Type} {n : ℕ} {src : List α}
    (h1 : src.length ≠ n) (h2 : src.length ≠ 1) : npBroadcastAssign n src = none := by
  unfold npBroadcastAssign
  rw [if_neg h1]
  match src with
  | [] => rfl
  | [x] => simp at h2
  | _ :: _ :: _ => rfl

theorem linspace_length (a b : ℚ) (n : ℕ) : (linspace a b n).length = n := by
  unfold linspace
  by_cases h0 : n = 0
  · simp [h0]
  · by_cases h1 : n = 1
    · simp [h0, h1]
    · rw [if_neg h0, if_neg h1, List.length_map, List.length_range]

end NIAcq

/-! ### Claim theorems -/

/-- Claim C1: evaluation of the code at the failing input.  On a running
buffered task (handle value 7) with samples [1, 2, 3] pending and an
empty accumulated buffer, `stop_task` succeeds but leaves
`acquired_data` empty: its final `self.read(self.task, None, -1)` call
passes the `Task` object where `read` compares the integer handle value
`task_handle != self.task.taskHandle.value`, so the guard rejects the
read and the pending samples are dropped instead of drained.  The second
conjunct shows the same read with the integer handle value (as the DAQmx
callback passes it) would have drained the samples into the buffer.  The
third conjunct is the error path of the claim: `stop_task` with no active
task raises `RuntimeError` with message "Task not running". -/
theorem C1_stop_task_drops_pending_samples :
    NIAcq.stop_task ⟨some ⟨7, [1, 2, 3]⟩, true, true, some []⟩ =
      Except.ok ⟨none, false, true, some []⟩ ∧
    NIAcq.read ⟨some ⟨7, [1, 2, 3]⟩, true, true, some []⟩ (.intVal 7) (-1) =
      (⟨some ⟨7, []⟩, true, true, some [[1, 2, 3]]⟩, 0) ∧
    NIAcq.stop_task ⟨none, false, false, none⟩ = Except.error "Task not running" :=
  ⟨rfl, rfl, rfl⟩

/-- Claim C2, counterexample.  For half-periods [0.1, 0.05, 0.2, 0.05]
and the single wait at time 0.1 with timeout 0.2, the resolution in
`transition_to_manual` does not yield one PauseOutcome of duration 0.15:
the observed periods [0.15, 0.25] (length 2) are broadcast against the
single scheduled period [0.1], giving a length-2 duration array, and the
assignment into the one-row `/data/waits` record array then raises a
broadcast `ValueError`, producing no outcome at all. -/
theorem C2_counterexample :
    NIWait.wm_transition_to_manual
        ⟨true, true, [⟨"wait0", 1/10, 1/5⟩], [1/10, 1/20, 1/5, 1/20], "rising"⟩ false =
      Except.error "ValueError: could not broadcast" ∧
    (NIWait.wait_durations_model [1/10, 1/20, 1/5, 1/20] [1/10]).map List.length =
      some 2 :=
  ⟨rfl, rfl⟩

/-- Claim C2, amended.  For half-periods [0.1, 0.05, 0.2, 0.05] and the
single PauseEvent at 0.1 with timeout 0.2, the wait-duration resolution
yields the duration array [0.05, 0.15] (numpy broadcasting the single
scheduled inter-pause period 0.1 over both observed periods [0.15,
0.25]) with timed-out flags [false, false]; storing these as the single
PauseOutcome then fails with a shape-mismatch `ValueError`, so no
PauseOutcome with duration 0.15 is produced. -/
theorem C2_amended_broadcast_durations :
    NIWait.wait_durations_model [1/10, 1/20, 1/5, 1/20] [1/10] = some [1/20, 3/20] ∧
    NIWait.waits_timed_out_model [1/20, 3/20] [1/5] = some [false, false] ∧
    NIWait.build_waits_data [⟨"wait0", 1/10, 1/5⟩] [1/20, 3/20] [false, false] =
      Except.error "ValueError: could not broadcast" := by
  refine ⟨?_, ?_, rfl⟩
  · norm_num [NIWait.wait_durations_model, NIWait.cumsum, NIWait.cumsumFrom,
      NIWait.everySecond, NIWait.diffs, NIWait.broadcastSub]
  · norm_num [NIWait.waits_timed_out_model, NIWait.broadcastGt]

/-- Claim C4, counterexample.  For rate 1000, start delay 0 and an end
time of exactly 5 sample periods (`rate * (t_end - t0) = 5`, an exact
boundary), the computed end index is 4, not the boundary index 5: the
epsilon test `t_end - t0 - i_end / rate < 2e-16` holds with difference
exactly 0, so the boundary sample is excluded. -/
theorem C4_counterexample :
    (1000 : ℚ) * (1/200 - 0) = 5 ∧
    NIAcq.i_end_corrected 1000 0 (1/200) = 4 ∧
    NIAcq.i_end_corrected 1000 0 (1/200) ≠ 5 := by
  refine ⟨by norm_num, ?_, ?_⟩ <;>
    norm_num [NIAcq.i_end_corrected, NIAcq.i_end_raw, NIAcq.EPS]

/-- Claim C4, amended.  For every MeasurementRequest whose shifted end
time lands exactly on a sample boundary (`t_end - t0 = k / rate`), the
sample at that boundary is excluded from the extracted series: the
computed end index is `k - 1`, the largest index strictly below the
boundary, as the comment in the code states ("We want np.floor(x) to yield
the largest integer < x (not <=)"). -/
theorem C4_exact_boundary_excluded (rate t0 t_end : ℚ) (k : ℤ)
    (hr : 0 < rate) (hb : t_end - t0 = (k : ℚ) / rate) :
    NIAcq.i_end_corrected rate t0 t_end = k - 1 := by
  have hrne : rate ≠ 0 := ne_of_gt hr
  have hmul : rate * (t_end - t0) = (k : ℚ) := by
    rw [hb]
    field_simp
  simp only [NIAcq.i_end_corrected, NIAcq.i_end_raw, hmul, Int.floor_intCast]
  rw [if_pos]
  rw [hb, sub_self]
  norm_num [NIAcq.EPS]

/-- Claim C4, witness for the amended theorem at rate 1000, t0 = 0,
t_end = 1/200, boundary index k = 5. -/
theorem C4_exact_boundary_excluded_witness :
    (0 : ℚ) < 1000 ∧ ((1 : ℚ)/200 - 0 = ((5 : ℤ) : ℚ) / 1000) ∧
    NIAcq.i_end_corrected 1000 0 (1/200) = 5 - 1 :=
  ⟨by norm_num, by norm_num,
    C4_exact_boundary_excluded 1000 0 (1/200) 5 (by norm_num) (by norm_num)⟩

/-- Claim C8, counterexample.  At sample rate 1 (> 0), `start_task`
computes `num_samples = min(10000, int(1 * 0.2)) = 0`, violating
`numSamples >= 1`. -/
theorem C8_counterexample :
    (0 : ℚ) < 1 ∧ NIAcq.num_samples 1 = 0 ∧ ¬ (1 ≤ NIAcq.num_samples 1) := by
  norm_num [NIAcq.num_samples, NIAcq.pyInt, NIAcq.MAX_READ_PTS, NIAcq.MAX_READ_INTERVAL]

/-- Claim C8, amended.  `start_task` selects
`num_samples = min(10000, floor(r * 0.2))`, and this is at least 1 for
every rate r >= 5 (for 0 < r < 5 it is 0). -/
theorem C8_num_samples_formula (r : ℚ) (h : 5 ≤ r) :
    NIAcq.num_samples r = min 10000 ⌊r * (1/5)⌋ ∧ 1 ≤ NIAcq.num_samples r := by
  have h5 : (1 : ℚ) ≤ r * (1/5) := by linarith
  have hnn : ¬ (r * (1/5) < 0) := by linarith
  have hfl : 1 ≤ ⌊r * (1/5)⌋ := Int.le_floor.mpr (by exact_mod_cast h5)
  constructor
  · unfold NIAcq.num_samples NIAcq.pyInt NIAcq.MAX_READ_PTS NIAcq.MAX_READ_INTERVAL
    rw [if_neg hnn]
  · unfold NIAcq.num_samples NIAcq.pyInt NIAcq.MAX_READ_PTS NIAcq.MAX_READ_INTERVAL
    rw [if_neg hnn]
    omega

/-- Claim C8, witness for the amended theorem at rate 1000:
`num_samples 1000 = 200 >= 1`. -/
theorem C8_num_samples_formula_witness :
    (5 : ℚ) ≤ 1000 ∧ NIAcq.num_samples 1000 = min 10000 ⌊(1000 : ℚ) * (1/5)⌋ ∧
    1 ≤ NIAcq.num_samples 1000 :=
  ⟨by norm_num, (C8_num_samples_formula 1000 (by norm_num)).1,
    (C8_num_samples_formula 1000 (by norm_num)).2⟩

/-- Claim C9: a `read` call whose task handle does not match the handle
value of the active task, or that arrives when no task is active (the guard
at line 419 rejects it), returns 0 and leaves the entire worker state —
in particular `acquired_data` — unchanged. -/
theorem C9_stale_callback_discarded (s : NIAcq.AcqState) (h : NIAcq.PyHandleArg) (n : ℤ)
    (hrej : NIAcq.readGuardRejects s h = true) :
    NIAcq.read s h n = (s, 0) := by
  obtain ⟨task, hra, bm, ad⟩ := s
  cases task with
  | none => rfl
  | some t =>
    simp only [NIAcq.readGuardRejects, Bool.not_eq_true'] at hrej
    simp [NIAcq.read, hrej]

/-- Claim C9, witness: a callback with handle value 7 arriving while the
active task has handle value 5 is discarded without touching the state. -/
theorem C9_stale_callback_discarded_witness :
    NIAcq.readGuardRejects ⟨some ⟨5, [1]⟩, true, true, some []⟩ (.intVal 7) = true ∧
    NIAcq.read ⟨some ⟨5, [1]⟩, true, true, some []⟩ (.intVal 7) (-1) =
      (⟨some ⟨5, [1]⟩, true, true, some []⟩, 0) :=
  ⟨rfl, C9_stale_callback_discarded _ _ _ rfl⟩

/-- Claim C10: the kwargs forwarded by `NI_PCIe_6363.__init__` to the
`NI_DAQmx` base initializer map every key present in the caller kwargs
to the caller-supplied value, and every other key (in particular every
CAPABILITIES key absent from the kwargs) to its CAPABILITIES table
value. -/
theorem C10_capabilities_override (kwargs : String → Option NIModel.CapValue)
    (key : String) :
    (∀ v, kwargs key = some v → NIModel.combined_kwargs kwargs key = some v) ∧
    (kwargs key = none →
      NIModel.combined_kwargs kwargs key = NIModel.CAPABILITIES key) := by
  constructor
  · intro v hv
    simp [NIModel.combined_kwargs, hv]
  · intro hv
    simp [NIModel.combined_kwargs, hv]

/-- Claim C10, witness: with kwargs overriding `num_AI` to 16, the
combined kwargs give 16 for `num_AI` and the table value for `num_AO`. -/
theorem C10_capabilities_override_witness :
    NIModel.combined_kwargs NIModel.exampleKwargs "num_AI" = some (.n 16) ∧
    NIModel.combined_kwargs NIModel.exampleKwargs "num_AO" =
      NIModel.CAPABILITIES "num_AO" :=
  ⟨(C10_capabilities_override NIModel.exampleKwargs "num_AI").1 _ rfl,
    (C10_capabilities_override NIModel.exampleKwargs "num_AO").2 rfl⟩

/-- Claim C3, counterexample.  A buffered session with zero PauseEvents
ending without abort: `transition_to_buffered` returns at the zero-wait
early exit before reading the designation attributes, leaving
`is_wait_monitor_device` false, so `transition_to_manual` writes no
`/data/waits` record set at all — no empty record set is written. -/
theorem C3_counterexample :
    NIWait.wm_transition_to_buffered [] true true none =
      Except.ok (⟨false, false, [], [], "rising"⟩, false) ∧
    NIWait.wm_transition_to_manual ⟨false, false, [], [], "rising"⟩ false =
      Except.ok 0 :=
  ⟨rfl, rfl⟩

/-- Claim C3, amended.  For every buffered session that ends without
abort on a device designated as the wait-monitoring device — which the
code only establishes when the session has at least one PauseEvent —
exactly one PauseOutcome record set is written at session end, provided
the monitor thread recorded the expected two edges per wait; with zero
PauseEvents the device is never marked as the wait monitor and no record
set (not even an empty one) is written. -/
theorem C3_one_record_set (waits : List NIWait.WaitTableEntry) (halfs : List ℚ)
    (ttype : String) (_hne : waits ≠ [])
    (hlen : halfs.length = 2 * waits.length) :
    NIWait.wm_transition_to_manual ⟨true, true, waits, halfs, ttype⟩ false =
      Except.ok 1 := by
  have h1 : (NIWait.diffs (NIWait.everySecond (0 :: NIWait.cumsum halfs))).length =
      waits.length := by
    rw [NIWait.diffs_length, NIWait.everySecond_length]
    simp only [List.length_cons, NIWait.cumsum_length, hlen]
    omega
  have h2 : (NIWait.diffs (0 :: waits.map (fun w => w.time))).length = waits.length := by
    rw [NIWait.diffs_length]
    simp
  have hd := NIWait.broadcastSub_of_length_eq (h1.trans h2.symm)
  have hdl : (List.zipWith (fun x y => x - y)
      (NIWait.diffs (NIWait.everySecond (0 :: NIWait.cumsum halfs)))
      (NIWait.diffs (0 :: waits.map (fun w => w.time)))).length = waits.length := by
    rw [List.length_zipWith, h1, h2, min_self]
  have ht := NIWait.broadcastGt_of_length_eq
    (a := List.zipWith (fun x y => x - y)
      (NIWait.diffs (NIWait.everySecond (0 :: NIWait.cumsum halfs)))
      (NIWait.diffs (0 :: waits.map (fun w => w.time))))
    (b := waits.map (fun w => w.timeout)) (by rw [hdl]; simp)
  have htl : (List.zipWith (fun x y => decide (y < x))
      (List.zipWith (fun x y => x - y)
        (NIWait.diffs (NIWait.everySecond (0 :: NIWait.cumsum halfs)))
        (NIWait.diffs (0 :: waits.map (fun w => w.time))))
      (waits.map (fun w => w.timeout))).length = waits.length := by
    rw [List.length_zipWith, hdl]
    simp
  simp only [NIWait.wm_transition_to_manual, NIWait.wait_durations_model,
    NIWait.waits_timed_out_model, NIWait.build_waits_data, Bool.and_self, if_true,
    Bool.false_eq_true, if_false, hd, NIAcq.npBroadcastAssign_of_length_eq hdl, ht,
    NIAcq.npBroadcastAssign_of_length_eq htl]

/-- Claim C3, witness for the amended theorem: one wait with two
recorded half-periods yields exactly one `/data/waits` write. -/
theorem C3_one_record_set_witness :
    [(⟨"wait0", 1/10, 1/5⟩ : NIWait.WaitTableEntry)] ≠ [] ∧
    ([1/10, 1/20] : List ℚ).length = 2 * [(⟨"wait0", 1/10, 1/5⟩ : NIWait.WaitTableEntry)].length ∧
    NIWait.wm_transition_to_manual
        ⟨true, true, [⟨"wait0", 1/10, 1/5⟩], [1/10, 1/20], "rising"⟩ false =
      Except.ok 1 :=
  ⟨by simp, by simp,
    C3_one_record_set [⟨"wait0", 1/10, 1/5⟩] [1/10, 1/20] "rising" (by simp) (by simp)⟩

/-- Claim C5, counterexample.  Rate 1, t0 = 0, a ten-sample buffer, and
a request resolving to the single-sample index range [12, 12], entirely
outside the buffer: the Python slice yields an empty array, the
one-element `times` array broadcasts into the empty destination, and the
extraction silently succeeds with an empty series — no `RangeError`, and
fewer samples (0) than the requested range (1) are produced. -/
theorem C5_counterexample :
    NIAcq.i_start_corrected 1 0 12 = 12 ∧
    NIAcq.i_end_corrected 1 0 (25/2) = 12 ∧
    ((List.replicate 10 (0:ℚ)).length : ℤ) < 12 ∧
    NIAcq.extract_one 1 0 (List.replicate 10 0) 12 (25/2) = Except.ok [] := by
  have h1 : NIAcq.i_start_corrected 1 0 12 = 12 := by
    norm_num [NIAcq.i_start_corrected, NIAcq.i_start_raw, NIAcq.EPS]
  have h2 : NIAcq.i_end_corrected 1 0 (25/2) = 12 := by
    norm_num [NIAcq.i_end_corrected, NIAcq.i_end_raw, NIAcq.EPS]
  refine ⟨h1, h2, by norm_num, ?_⟩
  simp only [NIAcq.extract_one, h1, h2]
  rfl

/-- Claim C5, amended.  A request whose computed index range satisfies
`0 <= i_start < i_end` with `i_end` beyond the end of the accumulated
buffer fails — not through an explicit `RangeError` bounds check, but
because the truncated Python slice is shorter than the requested range
and the time-axis assignment raises a broadcast `ValueError` — so no
such multi-sample series is silently produced.  (Single-sample ranges
beyond the buffer and ranges with negative indices are served silently
instead, as the counterexample shows.) -/
theorem C5_out_of_range_errors (rate t0 : ℚ) (buffer : List ℚ) (t_s t_e : ℚ)
    (h0 : 0 ≤ NIAcq.i_start_corrected rate t0 t_s)
    (h1 : NIAcq.i_start_corrected rate t0 t_s < NIAcq.i_end_corrected rate t0 t_e)
    (h2 : (buffer.length : ℤ) ≤ NIAcq.i_end_corrected rate t0 t_e) :
    NIAcq.extract_one rate t0 buffer t_s t_e =
      Except.error "ValueError: could not broadcast" := by
  set a := NIAcq.i_start_corrected rate t0 t_s with ha
  set b := NIAcq.i_end_corrected rate t0 t_e with hb
  have hbound_stop : NIAcq.pyBound buffer.length (b + 1) = (buffer.length : ℤ) := by
    unfold NIAcq.pyBound
    rw [if_neg (by omega)]
    omega
  have hbound_start : NIAcq.pyBound buffer.length a = min a buffer.length := by
    unfold NIAcq.pyBound
    rw [if_neg (by omega)]
    omega
  have hvalues : (NIAcq.pySlice buffer a (b + 1)).length =
      buffer.length - (min a (buffer.length : ℤ)).toNat := by
    simp [NIAcq.pySlice, hbound_stop, hbound_start]
  have htimes : (NIAcq.linspace (t0 + a / rate) (t0 + b / rate) (b - a + 1).toNat).length =
      (b - a + 1).toNat := NIAcq.linspace_length _ _ _
  have hmm : NIAcq.npBroadcastAssign (NIAcq.pySlice buffer a (b + 1)).length
      (NIAcq.linspace (t0 + a / rate) (t0 + b / rate) (b - a + 1).toNat) = none := by
    apply NIAcq.npBroadcastAssign_eq_none
    · rw [htimes, hvalues]
      omega
    · rw [htimes]
      omega
  simp only [NIAcq.extract_one, ← ha, ← hb]
  rw [if_neg (by omega), hmm]

/-- Claim C5, witness for the amended theorem: a three-sample buffer and
a request resolving to the index range [0, 4] fails with the broadcast
error. -/
theorem C5_out_of_range_errors_witness :
    (0 ≤ NIAcq.i_start_corrected 1 0 0) ∧
    (NIAcq.i_start_corrected 1 0 0 < NIAcq.i_end_corrected 1 0 5) ∧
    (((0 :: 0 :: 0 :: List.nil : List ℚ).length : ℤ) ≤ NIAcq.i_end_corrected 1 0 5) ∧
    NIAcq.extract_one 1 0 [0, 0, 0] 0 5 =
      Except.error "ValueError: could not broadcast" := by
  have hs : NIAcq.i_start_corrected 1 0 0 = 0 := by
    norm_num [NIAcq.i_start_corrected, NIAcq.i_start_raw, NIAcq.EPS]
  have he : NIAcq.i_end_corrected 1 0 5 = 4 := by
    norm_num [NIAcq.i_end_corrected, NIAcq.i_end_raw, NIAcq.EPS]
  refine ⟨by rw [hs], by rw [hs, he]; norm_num, by rw [he]; norm_num, ?_⟩
  exact C5_out_of_range_errors 1 0 [0, 0, 0] 0 5 (by rw [hs]) (by rw [hs, he]; norm_num)
    (by rw [he]; norm_num)

/-- Claim C6, counterexample.  With one wait, this device designated as
both monitor devices, and the configured timeout trigger polarity
"banana" (outside rising/falling), `transition_to_buffered` raises no
`ConfigurationError`: it stores the invalid polarity and starts the
monitor thread (second component `true`). -/
theorem C6_counterexample :
    NIWait.wm_transition_to_buffered [⟨"wait0", 1/10, 1/5⟩] true true (some "banana") =
      Except.ok (⟨true, true, [⟨"wait0", 1/10, 1/5⟩], [], "banana"⟩, true) :=
  rfl

/-- Claim C6, amended.  An invalid timeout trigger polarity (outside
rising/falling) is not rejected during `transition_to_buffered`, which
stores it and starts the monitor thread; the `ValueError` is raised only
later, inside the thread, when a timed-out wait calls
`send_resume_trigger`. -/
theorem C6_polarity_checked_late (p : String) (waits : List NIWait.WaitTableEntry)
    (hne : waits ≠ []) (hr : p ≠ "rising") (hf : p ≠ "falling") :
    NIWait.wm_transition_to_buffered waits true true (some p) =
      Except.ok (⟨true, true, waits, [], p⟩, true) ∧
    NIWait.send_resume_trigger p =
      Except.error "ValueError: timeout_trigger_type must be rising or falling" := by
  constructor
  · cases waits with
    | nil => exact absurd rfl hne
    | cons w ws => rfl
  · unfold NIWait.send_resume_trigger
    rw [if_neg hr, if_neg hf]

/-- Claim C6, witness for the amended theorem with polarity "banana". -/
theorem C6_polarity_checked_late_witness :
    [(⟨"wait0", 1/10, 1/5⟩ : NIWait.WaitTableEntry)] ≠ [] ∧
    ("banana" ≠ "rising") ∧ ("banana" ≠ "falling") ∧
    (NIWait.wm_transition_to_buffered [⟨"wait0", 1/10, 1/5⟩] true true (some "banana") =
      Except.ok (⟨true, true, [⟨"wait0", 1/10, 1/5⟩], [], "banana"⟩, true) ∧
    NIWait.send_resume_trigger "banana" =
      Except.error "ValueError: timeout_trigger_type must be rising or falling") :=
  ⟨by simp, by simp, by simp,
    C6_polarity_checked_late "banana" [⟨"wait0", 1/10, 1/5⟩] (by simp) (by simp) (by simp)⟩

/-- Claim C7, counterexample.  For a finite edge-wait timeout of 5 s,
`wait_for_rising_edge` passes the full 5 s — not a bounded 0.2 s
increment — as the blocking read timeout, and checks the abort flag only
once before blocking: with an abort flag that is set right after that
single check (true from iteration 1 on) and no edge arriving, the wait
returns the timeout result `None` instead of raising `Aborted`. -/
theorem C7_counterexample :
    NIWait.read_timeout (some 5) = 5 ∧
    ¬ (NIWait.read_timeout (some 5) ≤ 1/5) ∧
    NIWait.wait_loop 100 (some 5) (fun i => decide (1 ≤ i))
      (fun _ => .notYetAvailable) = some (Except.ok none) ∧
    (fun i => decide (1 ≤ i)) 1 = true :=
  ⟨rfl, by norm_num [NIWait.read_timeout], rfl, rfl⟩

/-- Claim C7, amended.  Only an edge wait with no timeout (`timeout is
None`) polls in bounded 0.2 s read increments and re-checks the abort
flag on every iteration, so that a set abort flag is observed and raises
`Aborted`: if every read reports no sample yet and the abort flag is set
from some iteration `k` on with `k` below the iteration budget, the loop
raises `Aborted`.  A wait with a finite timeout instead performs a
single read blocking up to the full timeout with one abort check before
it (the counterexample). -/
theorem C7_no_timeout_polls_abort (fuel k : ℕ) (ab : ℕ → Bool)
    (dr : ℕ → NIWait.ReadOutcome)
    (hdr : ∀ i, dr i = .notYetAvailable) (hab : ∀ j, k ≤ j → ab j = true)
    (hk : k < fuel) :
    NIWait.wait_loop fuel none ab dr = some (Except.error "Aborted") ∧
    NIWait.read_timeout none = 1/5 := by
  constructor
  · induction fuel generalizing k ab dr with
    | zero => omega
    | succ n ih =>
      by_cases h0 : ab 0 = true
      · rw [NIWait.wait_loop_succ, if_pos h0]
      · have hk0 : k ≠ 0 := fun h => h0 (hab 0 (by omega))
        rw [NIWait.wait_loop_succ, if_neg h0, hdr 0]
        exact ih (k - 1) (fun i => ab (i + 1)) (fun i => dr (i + 1))
          (fun i => hdr (i + 1)) (fun j hj => hab (j + 1) (by omega)) (by omega)
  · rfl

/-- Claim C7, witness for the amended theorem: abort set from iteration
1 on, three iterations of budget, every read empty — the no-timeout wait
raises `Aborted`. -/
theorem C7_no_timeout_polls_abort_witness :
    (1 < 3) ∧
    NIWait.wait_loop 3 none (fun i => decide (1 ≤ i)) (fun _ => .notYetAvailable) =
      some (Except.error "Aborted") ∧
    NIWait.read_timeout none = 1/5 :=
  ⟨by decide,
    (C7_no_timeout_polls_abort 3 1 (fun i => decide (1 ≤ i)) (fun _ => .notYetAvailable)
      (fun _ => rfl) (fun j hj => decide_eq_true hj) (by decide)).1,
    (C7_no_timeout_polls_abort 3 1 (fun i => decide (1 ≤ i)) (fun _ => .notYetAvailable)
      (fun _ => rfl) (fun j hj => decide_eq_true hj) (by decide)).2⟩
